import Mathlib

/- Shallow embedding of the TechnoSurge multi-agent lead-qualification service
   (src/leadbot.py, src/emailagent.py, src/workflow.py).  External services
   (the LLM completion endpoint, the spreadsheet service, the SMTP relay) are
   modelled as oracle inputs: each call site receives the observable outcome of
   its external call (a raised exception, a malformed response, or a parsed
   payload) as data, and the embedded control flow is translated line by line
   from the Python source. -/

namespace TS

/-- Python single-quote character, used to spell string literals of the source
that contain an apostrophe. -/
def sqc : String := String.singleton (Char.ofNat 39)

/-- Boolean infix search over lists, used to embed the Python substring test
`needle in hay`. -/
def infixSearch [BEq α] (needle : List α) : List α → Bool
  | [] => needle.isEmpty
  | a :: t => needle.isPrefixOf (a :: t) || infixSearch needle t

/-- Embeds the Python substring test `needle in hay` on strings. -/
def strContains (hay needle : String) : Bool := infixSearch needle.toList hay.toList

/-- Embeds Python `str.lower()` (per-character lowering). -/
def strLower (s : String) : String := String.mk (s.toList.map Char.toLower)

/-- Embeds Python string truthiness for an optional string: `None` and the
empty string are falsy. -/
def strTruthy : Option String → Bool
  | none => false
  | some s => !(s == "")

/-- Embeds a Python `a or dflt` expression where `a` is an optional string and
`dflt` is a string: yields `a` when truthy, else `dflt`. -/
def pyOrStr (a : Option String) (dflt : String) : String :=
  match a with
  | some s => if s = "" then dflt else s
  | none => dflt

/-- A lead record as used throughout the repository: the dict
`{name, email}` optionally carrying a `summary` key (attached by
`save_lead_to_sheet`). `"Unknown"` and `"NULL"` are the sentinel values. -/
structure Lead where
  name : String
  email : String
  summary : Option String
deriving Repr, DecidableEq

/-- The default lead dict `{name: "Unknown", email: "NULL"}` used when no
previous lead exists. -/
def defaultLead : Lead := ⟨"Unknown", "NULL", none⟩

/-- One conversation-memory entry `{role, content}`. -/
structure Msg where
  role : String
  content : String
deriving Repr, DecidableEq

/- ---------------- leadbot.py ---------------- -/

/-- The literal `"that's all"` from the `intents` keyword table. -/
def thatsAll : String := "that" ++ sqc ++ "s all"

/-- The keyword list of the `end` intent in leadbot.py (`intents`). -/
def endKeywords : List String :=
  ["bye", "thanks", "goodbye", "stop", "end", "quit", thatsAll, "finished", "no more"]

/-- Embeds `detect_intent` (leadbot.py): lowercases the input, counts keyword
substring hits, returns `"end"` when the overlap reaches the threshold 1, else
`"general"`. -/
def detect_intent (user_input : String) : String :=
  let u := strLower user_input
  let overlap := (endKeywords.filter (fun kw => strContains u kw)).length
  if overlap ≥ 1 then "end" else "general"

/-- Observable outcome of the extraction completion call in `analyze_details`:
the call itself raised, the response failed `json.loads`, or it parsed to a
dict whose `.get("name")`/`.get("email")`/`.get("refused")` results are given
(`none` embeds both a missing key and a JSON `null` value). -/
inductive ExtractResp where
  | svcError
  | parseError
  | parsed (name email : Option String) (refused : Option Bool)
deriving Repr, DecidableEq

/-- Embeds `analyze_details` (leadbot.py).  On any exception (service call or
JSON parse) it returns `prev_lead or default`.  On a parsed response it keeps
the previous value when the returned field equals the literal string `"null"`,
then applies the Python `or`-chains `name or prev_name or "Unknown"` and
`email or prev_email or "NULL"`; the returned dict carries no summary key. -/
def analyze_details (resp : ExtractResp) (prev_lead : Option Lead) : Lead :=
  let prev_name : Option String := prev_lead.map Lead.name
  let prev_email : Option String := prev_lead.map Lead.email
  match resp with
  | .svcError => prev_lead.getD defaultLead
  | .parseError => prev_lead.getD defaultLead
  | .parsed n e _refused =>
      let name : Option String := if n = some "null" then prev_name else n
      let email : Option String := if e = some "null" then prev_email else e
      { name := pyOrStr name (pyOrStr prev_name "Unknown"),
        email := pyOrStr email (pyOrStr prev_email "NULL"),
        summary := none }

/-- Result of `save_lead_to_sheet`: the returned lead and the worksheet rows
after the call (`none` embeds an unavailable worksheet handle). -/
structure SaveOut where
  lead : Lead
  sheet : Option (List (List String))
deriving Repr

/-- Embeds `save_lead_to_sheet` (leadbot.py).  Without a worksheet it no-ops;
otherwise it obtains a summary from the completion service (`summaryResp` is
the outcome of that call), attaches it to the lead and appends the row
`[name, email, summary]`; an exception from the summary call is caught and the
lead returned unchanged. -/
def save_lead_to_sheet (summaryResp : Except Unit String) (lead : Lead)
    (_history : List Msg) (sheet : Option (List (List String))) : SaveOut :=
  match sheet with
  | none => ⟨lead, none⟩
  | some ws =>
      match summaryResp with
      | .error _ => ⟨lead, some ws⟩
      | .ok summary =>
          let lead2 := { lead with summary := some summary }
          ⟨lead2, some (ws ++ [[lead2.name, lead2.email, summary]])⟩

/-- Observable outcome of the end-detection completion call in `respond`: the
response failed `json.loads` (caught), or parsed with the given
`.get("ended", False)` value.  The call raising an exception is kept separate
(`Except.error`) because `respond` does not catch it. -/
inductive DetectResp where
  | parseError
  | parsed (ended : Bool)
deriving Repr, DecidableEq

/-- Oracle bundle for one `respond` call: outcomes of the four completion-service
call sites it may reach (end detection, extraction, sales reply, summary). -/
structure RespondEnv where
  detection : Except Unit DetectResp
  extraction : ExtractResp
  responder : Except Unit String
  summaryResp : Except Unit String

/-- The fixed confirmation prompt issued before wrapping up (leadbot.py). -/
def confirmPrompt : String :=
  "Perfect! I" ++ sqc ++ "ve got all your details. Before we wrap up, is there anything else I can help you with today?"

/-- The farewell reply template of `respond`, with the lead name substituted. -/
def farewellReply (name : String) : String :=
  "Thank you for your interest, " ++ name ++
    "! We" ++ sqc ++ "ve saved your details and sent you an email with next steps. Looking forward to our demo! Goodbye 👋"

/-- The static apology returned when the sales-reply completion call fails. -/
def apologyReply : String :=
  "Sorry, I" ++ sqc ++ "m having trouble responding. Please try again or contact us directly!"

/-- Embeds the check `any("anything else" in msg["content"].lower() for msg in
conversation_memory if msg["role"] == "assistant")` from `respond`. -/
def askedAnythingElse (memory : List Msg) : Bool :=
  memory.any (fun m => m.role == "assistant" && strContains (strLower m.content) "anything else")

/-- Embeds the final-confirmation test of `respond`: `"no" in user_msg.lower()
or "that's all" in user_msg.lower() or "nothing else" in user_msg.lower()`. -/
def negativeClosing (user_msg : String) : Bool :=
  strContains (strLower user_msg) "no" || strContains (strLower user_msg) thatsAll ||
    strContains (strLower user_msg) "nothing else"

/-- Result of one `respond` call: the reply, the returned lead, the returned
`conversation_ended` flag, the conversation memory after the call, the lead
passed to `save_lead_to_sheet` (`none` when the persister was not invoked),
and the worksheet rows after the call. -/
structure RespondResult where
  reply : String
  lead : Lead
  ended : Bool
  memory : List Msg
  saveArg : Option Lead
  sheet : Option (List (List String))
deriving Repr

/-- Embeds the tail of `respond` (leadbot.py): the sales-reply completion call.
On success the reply is appended to memory; an exception is caught and the
static apology returned (without appending). -/
def respondTail (responderResp : Except Unit String) (updated_lead : Lead) (ce : Bool)
    (memory : List Msg) (sheet : Option (List (List String))) : RespondResult :=
  match responderResp with
  | .ok reply => ⟨reply, updated_lead, ce, memory ++ [⟨"assistant", reply⟩], none, sheet⟩
  | .error _ => ⟨apologyReply, updated_lead, ce, memory, none, sheet⟩

/-- Embeds the part of `respond` after intent detection and end detection have
produced `conversation_ended` (`ce`) and `final_confirmation` (`fc`), and the
extractor has produced `updated_lead`: the wrap-up block guarded by
`conversation_ended and updated_lead.get("email") != "NULL" and
final_confirmation`, else the normal responder flow. -/
def respondAfterDetect (env : RespondEnv) (user_msg : String) (updated_lead : Lead)
    (ce fc : Bool) (memory : List Msg) (sheet : Option (List (List String))) :
    RespondResult :=
  if ce && (updated_lead.email != "NULL") && fc then
    if !(askedAnythingElse memory) then
      ⟨confirmPrompt, updated_lead, false, memory ++ [⟨"assistant", confirmPrompt⟩], none, sheet⟩
    else if negativeClosing user_msg then
      let so := save_lead_to_sheet env.summaryResp updated_lead memory sheet
      let reply := farewellReply updated_lead.name
      ⟨reply, so.lead, true, memory ++ [⟨"assistant", reply⟩], some updated_lead, so.sheet⟩
    else
      respondTail env.responder updated_lead false memory sheet
  else
    respondTail env.responder updated_lead ce memory sheet

/-- Embeds `respond` (leadbot.py).  Appends the user message to memory, runs
`detect_intent`; on intent `"end"` both flags are set, otherwise the
end-detection completion call runs (its exception is NOT caught and becomes
`Except.error`; a JSON parse failure is caught and leaves both flags false;
a parsed response sets both flags to its `ended` value).  Then the extractor
runs and `respondAfterDetect` finishes the turn. -/
def respond (env : RespondEnv) (user_msg : String) (prev_lead : Option Lead)
    (memory0 : List Msg) (sheet : Option (List (List String))) :
    Except Unit RespondResult :=
  let memory := memory0 ++ [⟨"user", user_msg⟩]
  if detect_intent user_msg = "end" then
    .ok (respondAfterDetect env user_msg (analyze_details env.extraction prev_lead)
      true true memory sheet)
  else
    match env.detection with
    | .error e => .error e
    | .ok .parseError =>
        .ok (respondAfterDetect env user_msg (analyze_details env.extraction prev_lead)
          false false memory sheet)
    | .ok (.parsed ended) =>
        .ok (respondAfterDetect env user_msg (analyze_details env.extraction prev_lead)
          ended ended memory sheet)

/-- The canned greeting of `run_conversation_from_messages` for a conversation
with no user message yet. -/
def greetingReply : String :=
  "Hi! I" ++ sqc ++ "m Technosurge" ++ sqc ++
    "s AI specialist. We help businesses with Intelligent AI solutions that typically reduce costs by 40-60%. What challenges is your business facing that AI could help solve?"

/-- Embeds the reversed search for the last user message in
`run_conversation_from_messages`. -/
def lastUserMsg (memory : List Msg) : Option String :=
  (memory.reverse.find? (fun m => m.role == "user")).map Msg.content

/-- Result of `run_conversation_from_messages`, extended with the persistence
trace of the underlying `respond` call. -/
structure ConvOut where
  ai_reply : String
  lead : Lead
  conversation_ended : Bool
  saveArg : Option Lead
  sheet : Option (List (List String))
deriving Repr

/-- Embeds `run_conversation_from_messages` (leadbot.py).  The incoming
messages are already `{role, content}` dicts.  Without a (truthy) last user
message it returns the canned greeting with `conversation_ended = False` and
the previous lead (default summary `"No input yet"` when none); otherwise it
delegates to `respond` on the last user message. -/
def run_conversation_from_messages (env : RespondEnv) (messages : List Msg)
    (prev_lead : Option Lead) (sheet : Option (List (List String))) :
    Except Unit ConvOut :=
  let conversation_memory := messages
  match lastUserMsg conversation_memory with
  | none =>
      .ok ⟨greetingReply, prev_lead.getD ⟨"Unknown", "NULL", some "No input yet"⟩,
        false, none, sheet⟩
  | some last_user_msg =>
      if last_user_msg = "" then
        .ok ⟨greetingReply, prev_lead.getD ⟨"Unknown", "NULL", some "No input yet"⟩,
          false, none, sheet⟩
      else
        match respond env last_user_msg prev_lead conversation_memory sheet with
        | .error e => .error e
        | .ok r => .ok ⟨r.reply, r.lead, r.ended, r.saveArg, r.sheet⟩

/- ---------------- emailagent.py ---------------- -/

/-- The hardcoded fallback subject of `generate_email`. -/
def fallbackSubject : String := "Let" ++ sqc ++ "s Talk About AI Automation"

/-- The hardcoded fallback body of `generate_email`, with the Python
`name or 'there'` substitution. -/
def fallbackBody (name : String) : String :=
  "Hi " ++ (if name = "" then "there" else name) ++ ",\n\nI" ++ sqc ++
    "d love to show you how Technosurge can help with automation and AI solutions.\nWould you like to schedule a free demo?\n\nBest,\nTechnosurge Team"

/-- Embeds `generate_email` (emailagent.py).  `genResp` is the outcome of the
completion call: `some (subject, body)` when the call succeeded and its
response parsed to a JSON object with both keys; `none` for every failure
(service exception, JSON parse failure, missing key), in which case the
hardcoded fallback pair is returned.  The function never raises. -/
def generate_email (genResp : Option (String × String)) (name : String)
    (_summary : String) : String × String :=
  match genResp with
  | some sb => sb
  | none => (fallbackSubject, fallbackBody name)

/-- Trace of one `send_email` call: the returned value (`none` embeds Python
falling off the loop, possible only with `retries = 0`), the number of SMTP
transmission attempts made, and the sleep durations executed between
attempts. -/
structure SendTrace where
  result : Option Bool
  attempts : Nat
  sleeps : List Nat
deriving Repr, DecidableEq

/-- Embeds the retry loop of `send_email` (emailagent.py) from attempt number
`attempt` with `remaining` loop iterations left.  `outcome k = true` means the
SMTP transmission of attempt `k` succeeds; `false` means it raises (caught by
the loop).  A failed attempt that is not the last sleeps `delay` seconds and
retries; the last failed attempt returns `false`. -/
def send_email_loop (outcome : Nat → Bool) (delay : Nat) (attempt : Nat) :
    Nat → SendTrace
  | 0 => ⟨none, 0, []⟩
  | remaining + 1 =>
      if outcome attempt then ⟨some true, 1, []⟩
      else if remaining = 0 then ⟨some false, 1, []⟩
      else
        let t := send_email_loop outcome delay (attempt + 1) remaining
        ⟨t.result, t.attempts + 1, delay :: t.sleeps⟩

/-- Embeds `send_email` (emailagent.py): the attempt loop
`for attempt in range(1, retries + 1)`.  The Python defaults are
`retries = 3, delay = 5`; call sites that rely on the defaults are embedded as
`send_email outcome 3 5`. -/
def send_email (outcome : Nat → Bool) (retries delay : Nat) : SendTrace :=
  send_email_loop outcome delay 1 retries

/-- Embeds gspread `worksheet.find(value)` restricted to the row index of the
first matching cell in row-major order (1-based, as gspread reports it). -/
def findRow (rows : List (List String)) (value : String) : Option Nat :=
  (rows.findIdx? (fun row => row.contains value)).map (· + 1)

/-- Pads a row with empty cells up to length `n`, mirroring the sheet grid
that gspread addresses by absolute column index. -/
def padTo (row : List String) (n : Nat) : List String :=
  row ++ List.replicate (n - row.length) ""

/-- Embeds gspread `worksheet.update_cell(r, c, value)` (1-based row and
column) on the row-list model of the sheet. -/
def update_cell (rows : List (List String)) (r c : Nat) (value : String) :
    List (List String) :=
  rows.mapIdx (fun i row => if i + 1 = r then (padTo row c).set (c - 1) value else row)

/-- Oracle bundle for the email agent: the outcome of the `generate_email`
completion call and the per-attempt SMTP transmission outcomes. -/
structure EmailEnv where
  genResp : Option (String × String)
  sendOutcome : Nat → Bool

/-- Result of `send_email_to_lead`: the returned boolean, the worksheet rows
after the call, and the number of SMTP transmission attempts performed. -/
structure SendLeadOut where
  success : Bool
  sheet : Option (List (List String))
  transmissionAttempts : Nat
deriving Repr

/-- Embeds `send_email_to_lead` (emailagent.py).  Without a worksheet it
returns `False`; with a falsy or `"NULL"` email it returns `False` without
transmitting; otherwise it generates the email, calls `send_email` with the
default bounds and, on success only, finds the lead row by email value and
marks column 4 `"SENT"`.  On failure it returns `False` with the sheet
untouched. -/
def send_email_to_lead (env : EmailEnv) (lead : Lead)
    (sheet : Option (List (List String))) : SendLeadOut :=
  match sheet with
  | none => ⟨false, none, 0⟩
  | some ws =>
      let name := lead.name
      let email := lead.email
      let summary := pyOrStr lead.summary "No summary provided"
      if email == "" || email == "NULL" then ⟨false, some ws, 0⟩
      else
        let _sb := generate_email env.genResp name summary
        let t := send_email env.sendOutcome 3 5
        if t.result.getD false then
          match findRow ws email with
          | some r => ⟨true, some (update_cell ws r 4 "SENT"), t.attempts⟩
          | none => ⟨true, some ws, t.attempts⟩
        else ⟨false, some ws, t.attempts⟩

/- ---------------- workflow.py ---------------- -/

/-- The langgraph session state of workflow.py: message history (Human and AI
messages as `{role, content}` with roles `"user"`/`"assistant"`), the
`lead_saved`, `emails_sent` and `conversation_ended` flags and the latest
lead. -/
structure WState where
  messages : List Msg
  lead_saved : Bool
  emails_sent : Bool
  latest_lead : Option Lead
  conversation_ended : Bool
deriving Repr

/-- The fresh session state created by the `chat` endpoint. -/
def initialState : WState :=
  ⟨[], false, false, some ⟨"Unknown", "NULL", none⟩, false⟩

/-- Result of `leadbot_node`: the updated state plus the persistence trace
(the lead handed to `save_lead_to_sheet`, if any) and the leadbot module
worksheet after the node. -/
structure NodeOut where
  state : WState
  saveArg : Option Lead
  leadSheet : Option (List (List String))
deriving Repr

/-- Embeds `leadbot_node` (workflow.py): converts the message history, applies
`state["latest_lead"] or default`, runs `run_conversation_from_messages`, then
stores the new lead, sets `conversation_ended` from the result, sets
`lead_saved = conversation_ended`, and appends the AI reply to the messages.
An exception from `respond` propagates. -/
def leadbot_node (env : RespondEnv) (sheet : Option (List (List String)))
    (state : WState) : Except Unit NodeOut :=
  let previous_lead := state.latest_lead.getD defaultLead
  match run_conversation_from_messages env state.messages (some previous_lead) sheet with
  | .error e => .error e
  | .ok result =>
      .ok ⟨{ messages := state.messages ++ [⟨"assistant", result.ai_reply⟩],
             lead_saved := result.conversation_ended,
             emails_sent := state.emails_sent,
             latest_lead := some result.lead,
             conversation_ended := result.conversation_ended },
           result.saveArg, result.sheet⟩

/-- Embeds `route_after_leadbot` (workflow.py): route to the email agent iff
`conversation_ended` and `latest_lead.get("email", "NULL") != "NULL"`. -/
def route_after_leadbot (state : WState) : Bool :=
  state.conversation_ended &&
    (((state.latest_lead.map Lead.email).getD "NULL") != "NULL")

/-- Result of `emailagent_node`: the updated state, whether
`send_email_to_lead` was invoked, the SMTP transmission attempts performed,
and the emailagent module worksheet after the node. -/
structure EmailNodeOut where
  state : WState
  invoked : Bool
  transmissionAttempts : Nat
  emailSheet : Option (List (List String))
deriving Repr

/-- Embeds `emailagent_node` (workflow.py): skips with `emails_sent = False`
when there is no latest lead or its email is falsy or `"NULL"`; otherwise
invokes `send_email_to_lead` and stores its boolean result (its exceptions are
caught and yield `False`; in this model it is total). -/
def emailagent_node (env : EmailEnv) (sheet : Option (List (List String)))
    (state : WState) : EmailNodeOut :=
  match state.latest_lead with
  | none => ⟨{ state with emails_sent := false }, false, 0, sheet⟩
  | some lead =>
      if !(lead.email == "") && lead.email != "NULL" then
        let out := send_email_to_lead env lead sheet
        ⟨{ state with emails_sent := out.success }, true, out.transmissionAttempts, out.sheet⟩
      else ⟨{ state with emails_sent := false }, false, 0, sheet⟩

/-- Oracle bundle for one chat turn: the leadbot oracles, the email-agent
oracles, and the two module-level worksheet handles. -/
structure TurnEnv where
  respondEnv : RespondEnv
  emailEnv : EmailEnv
  leadSheet : Option (List (List String))
  emailSheet : Option (List (List String))

/-- Trace of one compiled-graph invocation. -/
structure TurnOut where
  state : WState
  saveArg : Option Lead
  emailInvoked : Bool
  transmissionAttempts : Nat
  leadSheet : Option (List (List String))
  emailSheet : Option (List (List String))
deriving Repr

/-- Embeds `graph.invoke` on the compiled graph of workflow.py:
START → leadbot → (route_after_leadbot) → emailagent? → END. -/
def graph_invoke (env : TurnEnv) (state : WState) : Except Unit TurnOut :=
  match leadbot_node env.respondEnv env.leadSheet state with
  | .error e => .error e
  | .ok n1 =>
      if route_after_leadbot n1.state then
        let n2 := emailagent_node env.emailEnv env.emailSheet n1.state
        .ok ⟨n2.state, n1.saveArg, n2.invoked, n2.transmissionAttempts,
          n1.leadSheet, n2.emailSheet⟩
      else
        .ok ⟨n1.state, n1.saveArg, false, 0, n1.leadSheet, env.emailSheet⟩

/-- The JSON payload returned by the `POST /chat/:session_id` endpoint. -/
structure ChatResponse where
  status : String
  ai_reply : String
  lead : Lead
  lead_saved : Bool
  emails_sent : Bool
  conversation_ended : Bool
deriving Repr

/-- Embeds the `chat` endpoint handler (workflow.py) on an existing session
state: appends the request message when truthy, invokes the graph (an
exception propagates to the HTTP layer as `Except.error`, i.e. no 200
response), and builds the response payload from the final state. -/
def chat (env : TurnEnv) (state : WState) (reqMessage : Option String) :
    Except Unit (ChatResponse × TurnOut) :=
  let state1 :=
    match reqMessage with
    | some m =>
        if m = "" then state
        else { state with messages := state.messages ++ [⟨"user", m⟩] }
    | none => state
  match graph_invoke env state1 with
  | .error e => .error e
  | .ok out =>
      let aiMsgs := out.state.messages.filter (fun m => m.role == "assistant")
      let ai_reply := ((aiMsgs.getLast?).map Msg.content).getD "No response generated"
      .ok (⟨"ok", ai_reply, out.state.latest_lead.getD defaultLead,
        out.state.lead_saved, out.state.emails_sent, out.state.conversation_ended⟩, out)

/- ---------------- helper lemmas ---------------- -/

/-- The responder tail returns the `conversation_ended` flag it is given. -/
theorem respondTail_ended (resp : Except Unit String) (u : Lead) (ce : Bool)
    (m : List Msg) (sh : Option (List (List String))) :
    (respondTail resp u ce m sh).ended = ce := by
  cases resp <;> rfl

/-- The responder tail never invokes the persister. -/
theorem respondTail_saveArg (resp : Except Unit String) (u : Lead) (ce : Bool)
    (m : List Msg) (sh : Option (List (List String))) :
    (respondTail resp u ce m sh).saveArg = none := by
  cases resp <;> rfl

/-- The responder tail returns the extracted lead unchanged. -/
theorem respondTail_lead (resp : Except Unit String) (u : Lead) (ce : Bool)
    (m : List Msg) (sh : Option (List (List String))) :
    (respondTail resp u ce m sh).lead = u := by
  cases resp <;> rfl

/-- `save_lead_to_sheet` never changes the lead email. -/
theorem save_lead_email (sr : Except Unit String) (l : Lead) (h : List Msg)
    (sh : Option (List (List String))) :
    (save_lead_to_sheet sr l h sh).lead.email = l.email := by
  unfold save_lead_to_sheet
  cases sh with
  | none => rfl
  | some ws => cases sr <;> rfl

/-- In every branch of `respond` the wrap-up block runs with
`final_confirmation` equal to `conversation_ended`; if such a turn returns
`conversation_ended = true` and its lead email is not `"NULL"`, the persister
was invoked on the extracted lead. -/
theorem rad_saveArg_of_ended (env : RespondEnv) (msg : String) (u : Lead) (ce : Bool)
    (mem : List Msg) (sh : Option (List (List String))) :
    (respondAfterDetect env msg u ce ce mem sh).ended = true →
    (respondAfterDetect env msg u ce ce mem sh).lead.email ≠ "NULL" →
    (respondAfterDetect env msg u ce ce mem sh).saveArg = some u := by
  intro h1 h2
  by_cases hc : (ce && (u.email != "NULL") && ce) = true
  · by_cases ha : askedAnythingElse mem = true
    · by_cases hn : negativeClosing msg = true
      · simp [respondAfterDetect, hc, ha, hn]
      · simp [respondAfterDetect, hc, ha, hn, respondTail_ended] at h1
    · simp [respondAfterDetect, hc, ha] at h1
  · simp [respondAfterDetect, hc, respondTail_ended, respondTail_lead] at h1 h2
    rw [h1] at hc
    simp [bne] at hc
    exact absurd hc h2

/-- When the extracted lead email is the `"NULL"` sentinel, the wrap-up block
of `respond` is skipped entirely and the normal responder flow runs with the
detected `conversation_ended` flag. -/
theorem rad_null_email (env : RespondEnv) (msg : String) (u : Lead) (ce fc : Bool)
    (mem : List Msg) (sh : Option (List (List String))) (h : u.email = "NULL") :
    respondAfterDetect env msg u ce fc mem sh = respondTail env.responder u ce mem sh := by
  unfold respondAfterDetect
  simp [h]

/-- Inversion for `respond`: a successful call is `respondAfterDetect` on the
extracted lead with equal `conversation_ended`/`final_confirmation` flags and
the user message appended to memory. -/
theorem respond_ok_inv (env : RespondEnv) (msg : String) (prev : Option Lead)
    (mem : List Msg) (sh : Option (List (List String))) (r : RespondResult)
    (h : respond env msg prev mem sh = .ok r) :
    ∃ ce : Bool, r = respondAfterDetect env msg (analyze_details env.extraction prev)
      ce ce (mem ++ [⟨"user", msg⟩]) sh := by
  unfold respond at h
  by_cases hd : detect_intent msg = "end"
  · rw [if_pos hd] at h
    exact ⟨true, (Except.ok.inj h).symm⟩
  · rw [if_neg hd] at h
    cases henv : env.detection with
    | error e => rw [henv] at h; exact Except.noConfusion h
    | ok dr =>
        rw [henv] at h
        cases dr with
        | parseError => exact ⟨false, (Except.ok.inj h).symm⟩
        | parsed ended => exact ⟨ended, (Except.ok.inj h).symm⟩

/-- Case analysis for `run_conversation_from_messages`: either the canned
greeting (never ended, no persistence) or a delegated `respond` call. -/
theorem run_conv_cases (env : RespondEnv) (msgs : List Msg) (prev : Option Lead)
    (sh : Option (List (List String))) (c : ConvOut)
    (h : run_conversation_from_messages env msgs prev sh = .ok c) :
    (c.conversation_ended = false ∧ c.saveArg = none) ∨
    (∃ m r, respond env m prev msgs sh = .ok r ∧ c.conversation_ended = r.ended ∧
      c.saveArg = r.saveArg ∧ c.lead = r.lead) := by
  unfold run_conversation_from_messages at h
  dsimp only at h
  cases h1 : lastUserMsg msgs with
  | none =>
      rw [h1] at h
      dsimp only at h
      left
      rw [← Except.ok.inj h]
      exact ⟨rfl, rfl⟩
  | some m =>
      rw [h1] at h
      dsimp only at h
      by_cases hm : m = ""
      · rw [if_pos hm] at h
        left
        rw [← Except.ok.inj h]
        exact ⟨rfl, rfl⟩
      · rw [if_neg hm] at h
        cases h2 : respond env m prev msgs sh with
        | error e => rw [h2] at h; exact Except.noConfusion h
        | ok r =>
            rw [h2] at h
            dsimp only at h
            right
            exact ⟨m, r, h2, by rw [← Except.ok.inj h]; exact ⟨rfl, rfl, rfl⟩⟩

/-- If a leadbot turn returns `conversation_ended = true` with a lead whose
email is not `"NULL"`, then `save_lead_to_sheet` was invoked in that turn. -/
theorem conv_ended_save (env : RespondEnv) (msgs : List Msg) (prev : Option Lead)
    (sh : Option (List (List String))) (c : ConvOut)
    (h : run_conversation_from_messages env msgs prev sh = .ok c)
    (h1 : c.conversation_ended = true) (h2 : c.lead.email ≠ "NULL") :
    c.saveArg.isSome = true := by
  rcases run_conv_cases env msgs prev sh c h with ⟨hf, _⟩ | ⟨m, r, hr, he, hs, hl⟩
  · rw [h1] at hf; exact Bool.noConfusion hf
  · rcases respond_ok_inv env m prev msgs sh r hr with ⟨ce, hrad⟩
    rw [hs, hrad]
    rw [rad_saveArg_of_ended env m (analyze_details env.extraction prev) ce
      (msgs ++ [Msg.mk "user" m]) sh (by rw [← hrad, ← he]; exact h1)
      (by rw [← hrad, ← hl]; exact h2)]
    rfl

/-- Inversion for `leadbot_node`: it reflects the leadbot result into the
state, with `lead_saved` set to `conversation_ended` and `emails_sent`
untouched. -/
theorem leadbot_ok_inv (env : RespondEnv) (sh : Option (List (List String)))
    (s : WState) (n : NodeOut) (h : leadbot_node env sh s = .ok n) :
    ∃ c, run_conversation_from_messages env s.messages
        (some (s.latest_lead.getD defaultLead)) sh = .ok c ∧
      n.state.messages = s.messages ++ [⟨"assistant", c.ai_reply⟩] ∧
      n.state.lead_saved = c.conversation_ended ∧
      n.state.emails_sent = s.emails_sent ∧
      n.state.latest_lead = some c.lead ∧
      n.state.conversation_ended = c.conversation_ended ∧
      n.saveArg = c.saveArg := by
  unfold leadbot_node at h
  dsimp only at h
  cases h1 : run_conversation_from_messages env s.messages
      (some (s.latest_lead.getD defaultLead)) sh with
  | error e => rw [h1] at h; exact Except.noConfusion h
  | ok c =>
      rw [h1] at h
      dsimp only at h
      exact ⟨c, rfl, by rw [← Except.ok.inj h]; exact ⟨rfl, rfl, rfl, rfl, rfl, rfl⟩⟩

/-- `emailagent_node` only writes `emails_sent`; the rest of the state is
untouched. -/
theorem email_node_preserves (e : EmailEnv) (sh : Option (List (List String)))
    (st : WState) :
    (emailagent_node e sh st).state.lead_saved = st.lead_saved ∧
    (emailagent_node e sh st).state.conversation_ended = st.conversation_ended ∧
    (emailagent_node e sh st).state.latest_lead = st.latest_lead ∧
    (emailagent_node e sh st).state.messages = st.messages := by
  unfold emailagent_node
  cases st.latest_lead with
  | none => exact ⟨rfl, rfl, rfl, rfl⟩
  | some lead =>
      dsimp only
      by_cases hc : (!(lead.email == "") && lead.email != "NULL") = true
      · rw [if_pos hc]; exact ⟨rfl, rfl, rfl, rfl⟩
      · rw [if_neg hc]; exact ⟨rfl, rfl, rfl, rfl⟩

/-- `emailagent_node` can set `emails_sent` only by invoking
`send_email_to_lead`; the skip branches set it to `False`. -/
theorem email_node_sent_invoked (e : EmailEnv) (sh : Option (List (List String)))
    (st : WState) (h : (emailagent_node e sh st).state.emails_sent = true) :
    (emailagent_node e sh st).invoked = true := by
  unfold emailagent_node at h ⊢
  revert h
  cases st.latest_lead with
  | none => intro h; exact Bool.noConfusion h
  | some lead =>
      dsimp only
      by_cases hc : (!(lead.email == "") && lead.email != "NULL") = true
      · rw [if_pos hc]; intro h; rfl
      · rw [if_neg hc]; intro h; exact Bool.noConfusion h

/-- With a latest lead whose email is truthy and not `"NULL"`,
`emailagent_node` invokes `send_email_to_lead`. -/
theorem email_node_invoked_of (e : EmailEnv) (sh : Option (List (List String)))
    (st : WState) (l : Lead) (hl : st.latest_lead = some l)
    (h1 : l.email ≠ "") (h2 : l.email ≠ "NULL") :
    (emailagent_node e sh st).invoked = true := by
  unfold emailagent_node
  rw [hl]
  dsimp only
  rw [if_pos (by simp [h1, h2])]

/-- The routing gate fires exactly when the turn ended with a non-`"NULL"`
lead email. -/
theorem route_true_iff (st : WState) :
    route_after_leadbot st = true ↔
      (st.conversation_ended = true ∧
        ((st.latest_lead.map Lead.email).getD "NULL") ≠ "NULL") := by
  unfold route_after_leadbot
  simp [Bool.and_eq_true, bne_iff_ne]

/-- Inversion for a compiled-graph invocation: a leadbot step followed either
by the email agent (when the route fires) or by END. -/
theorem graph_invoke_inv (env : TurnEnv) (s : WState) (out : TurnOut)
    (h : graph_invoke env s = .ok out) :
    ∃ n, leadbot_node env.respondEnv env.leadSheet s = .ok n ∧
      out.saveArg = n.saveArg ∧
      ((route_after_leadbot n.state = true ∧
          out.state = (emailagent_node env.emailEnv env.emailSheet n.state).state ∧
          out.emailInvoked = (emailagent_node env.emailEnv env.emailSheet n.state).invoked) ∨
       (route_after_leadbot n.state = false ∧ out.state = n.state ∧
          out.emailInvoked = false)) := by
  unfold graph_invoke at h
  cases h1 : leadbot_node env.respondEnv env.leadSheet s with
  | error e => rw [h1] at h; exact Except.noConfusion h
  | ok n =>
      rw [h1] at h
      dsimp only at h
      by_cases hr : route_after_leadbot n.state = true
      · rw [if_pos hr] at h
        exact ⟨n, rfl, by rw [← Except.ok.inj h], Or.inl ⟨hr,
          by rw [← Except.ok.inj h], by rw [← Except.ok.inj h]⟩⟩
      · rw [if_neg hr] at h
        exact ⟨n, rfl, by rw [← Except.ok.inj h], Or.inr ⟨by simpa using hr,
          by rw [← Except.ok.inj h], by rw [← Except.ok.inj h]⟩⟩

/-- Appending a user message makes it the last user message. -/
theorem lastUserMsg_concat (l : List Msg) (m : String) :
    lastUserMsg (l ++ [Msg.mk "user" m]) = some m := by
  unfold lastUserMsg
  simp [List.find?]

/-- Appending a user message does not change the assistant-side
"anything else" check. -/
theorem askedAnythingElse_user (l : List Msg) (m : String) :
    askedAnythingElse (l ++ [Msg.mk "user" m]) = askedAnythingElse l := by
  unfold askedAnythingElse
  simp [List.any_append]

/-- After appending an assistant reply, the chat endpoint reads back exactly
that reply. -/
theorem lastAssistant_concat (l : List Msg) (rep : String) :
    (((((l ++ [Msg.mk "assistant" rep]).filter
        (fun m => m.role == "assistant")).getLast?).map Msg.content).getD
      "No response generated") = rep := by
  simp [List.filter_append, List.getLast?_concat]

/-- The Python `or`-chain `x or x or d` collapses to `x or d`. -/
theorem pyOrStr_self_absorb (a d : String) :
    pyOrStr (some a) (pyOrStr (some a) d) = pyOrStr (some a) d := by
  unfold pyOrStr
  by_cases h : a = "" <;> simp [h]

/- ---------------- claims ---------------- -/

/-- An oracle bundle for concrete turns: the detector reports not-ended, the
extractor response carries no new information, the sales reply and summary
calls succeed, sending always fails, both worksheets are empty. -/
def exEnvA : TurnEnv :=
  ⟨⟨.ok (.parsed false), .parsed none none none, .ok "generic reply", .ok "S"⟩,
   ⟨none, fun _ => false⟩, some [], some []⟩

/-- C1, counterexample: on the turn `"bye"` of a fresh session (lead email
still `"NULL"`), the intent classifier fires, the turn ends with
`conversation_ended = true`, yet `save_lead_to_sheet` is never invoked and no
email is attempted — and `lead_saved` is reported `true` anyway.  This refutes
the claim that `conversation_ended == true` implies the Lead Persister ran. -/
theorem c1_counterexample :
    (chat exEnvA initialState (some "bye")).map
      (fun p => (p.1.conversation_ended, p.1.lead_saved, p.2.saveArg, p.2.emailInvoked)) =
    .ok (true, true, none, false) := by
  rfl

/-- C1, amended: in every successful chat turn, if the turn ends with
`conversation_ended = true` AND the latest lead email is not the `"NULL"`
sentinel, then `save_lead_to_sheet` was invoked during the turn, and (when the
email is also non-empty) `send_email_to_lead` was invoked; moreover
`lead_saved` always equals `conversation_ended` at the end of the turn, so
`lead_saved` is never `true` when `conversation_ended` is `false`. -/
theorem c1_amended_theorem (env : TurnEnv) (s : WState) (out : TurnOut)
    (h : graph_invoke env s = .ok out) :
    (out.state.conversation_ended = true →
      ((out.state.latest_lead.map Lead.email).getD "NULL") ≠ "NULL" →
      out.saveArg.isSome = true) ∧
    (out.state.conversation_ended = true →
      ((out.state.latest_lead.map Lead.email).getD "NULL") ≠ "NULL" →
      ((out.state.latest_lead.map Lead.email).getD "NULL") ≠ "" →
      out.emailInvoked = true) ∧
    out.state.lead_saved = out.state.conversation_ended := by
  rcases graph_invoke_inv env s out h with ⟨n, hn, hsave, hroute⟩
  rcases leadbot_ok_inv _ _ _ _ hn with ⟨c, hc, _hmsg, hls, _hes, hll, hce, hsa⟩
  rcases hroute with ⟨hr, hst, hinv⟩ | ⟨hr, hst, hinv⟩
  · have hpres := email_node_preserves env.emailEnv env.emailSheet n.state
    have hce2 : out.state.conversation_ended = c.conversation_ended := by
      rw [hst, hpres.2.1, hce]
    have hll2 : out.state.latest_lead = some c.lead := by
      rw [hst, hpres.2.2.1, hll]
    have hls2 : out.state.lead_saved = c.conversation_ended := by
      rw [hst, hpres.1, hls]
    have hmail : ((out.state.latest_lead.map Lead.email).getD "NULL") = c.lead.email := by
      rw [hll2]; rfl
    refine ⟨?_, ?_, ?_⟩
    · intro h1 h2
      rw [hsave, hsa]
      exact conv_ended_save _ _ _ _ _ hc (by rw [← hce2, h1]) (by rw [← hmail]; exact h2)
    · intro _h1 h2 h3
      rw [hinv]
      exact email_node_invoked_of _ _ _ c.lead hll
        (by rw [← hmail]; exact h3) (by rw [← hmail]; exact h2)
    · rw [hls2, hce2]
  · have hce2 : out.state.conversation_ended = c.conversation_ended := by
      rw [hst, hce]
    have hll2 : out.state.latest_lead = some c.lead := by
      rw [hst, hll]
    have hls2 : out.state.lead_saved = c.conversation_ended := by
      rw [hst, hls]
    have hmail : ((out.state.latest_lead.map Lead.email).getD "NULL") = c.lead.email := by
      rw [hll2]; rfl
    refine ⟨?_, ?_, ?_⟩
    · intro h1 h2
      rw [hsave, hsa]
      exact conv_ended_save _ _ _ _ _ hc (by rw [← hce2, h1]) (by rw [← hmail]; exact h2)
    · intro h1 h2 _h3
      have hroute2 : route_after_leadbot n.state = true := by
        apply (route_true_iff n.state).mpr
        refine ⟨?_, ?_⟩
        · rw [← hst]; exact h1
        · rw [← hst]; exact h2
      rw [hr] at hroute2
      exact Bool.noConfusion hroute2
    · rw [hls2, hce2]

/-- C10: `emails_sent` can turn `true` only in a turn whose final state has
`conversation_ended = true` and a latest lead with a real (non-`"NULL"`)
email — the email agent is reachable only through the routing gate checking
both — and `send_email_to_lead` itself returns `false` without a single SMTP
transmission attempt when the email is missing (falsy) or `"NULL"`. -/
theorem c10_theorem (env : TurnEnv) (s : WState) (out : TurnOut)
    (h : graph_invoke env s = .ok out) :
    (s.emails_sent = false → out.state.emails_sent = true →
      out.state.conversation_ended = true ∧
      ((out.state.latest_lead.map Lead.email).getD "NULL") ≠ "NULL" ∧
      out.emailInvoked = true) ∧
    (∀ (e : EmailEnv) (lead : Lead) (sh : Option (List (List String))),
      lead.email = "" ∨ lead.email = "NULL" →
      (send_email_to_lead e lead sh).success = false ∧
      (send_email_to_lead e lead sh).transmissionAttempts = 0) := by
  constructor
  · intro hs0 hsent
    rcases graph_invoke_inv env s out h with ⟨n, hn, _hsave, hroute⟩
    rcases leadbot_ok_inv _ _ _ _ hn with ⟨c, _hc, _hmsg, _hls, hes, _hll, _hce, _hsa⟩
    rcases hroute with ⟨hr, hst, hinv⟩ | ⟨hr, hst, hinv⟩
    · have hpres := email_node_preserves env.emailEnv env.emailSheet n.state
      have hrt := (route_true_iff n.state).mp hr
      refine ⟨?_, ?_, ?_⟩
      · rw [hst, hpres.2.1]; exact hrt.1
      · rw [hst, hpres.2.2.1]; exact hrt.2
      · rw [hinv]
        apply email_node_sent_invoked
        rw [← hst]; exact hsent
    · rw [hst, hes, hs0] at hsent
      exact Bool.noConfusion hsent
  · intro e lead sh hemail
    unfold send_email_to_lead
    cases sh with
    | none => exact ⟨rfl, rfl⟩
    | some ws =>
        dsimp only
        rw [if_pos (by rcases hemail with hx | hx <;> simp [hx])]
        exact ⟨rfl, rfl⟩

/-- An oracle bundle for a finishing turn: extraction reports
Alice/alice@x.com, the summary call returns `"Summary"`, the SMTP relay
accepts on the first attempt. -/
def exEnvEnd : TurnEnv :=
  ⟨⟨.ok (.parsed false), .parsed (some "Alice") (some "alice@x.com") (some false),
    .ok "generic reply", .ok "Summary"⟩,
   ⟨none, fun _ => true⟩, some [], some []⟩

/-- Session state after the confirmation prompt was issued and the user closed
with a negative answer. -/
def sEnd : WState :=
  ⟨[Msg.mk "user" "hi", Msg.mk "assistant" confirmPrompt,
    Msg.mk "user" ("no, that" ++ sqc ++ "s all")],
   false, false, some (Lead.mk "Alice" "alice@x.com" none), false⟩

/-- The turn trace of `graph_invoke exEnvEnd sEnd`, computed by evaluation. -/
def witOutEnd : TurnOut :=
  ⟨⟨[Msg.mk "user" "hi", Msg.mk "assistant" confirmPrompt,
     Msg.mk "user" ("no, that" ++ sqc ++ "s all"),
     Msg.mk "assistant" (farewellReply "Alice")],
    true, true, some (Lead.mk "Alice" "alice@x.com" (some "Summary")), true⟩,
   some (Lead.mk "Alice" "alice@x.com" none), true, 1,
   some [["Alice", "alice@x.com", "Summary"]], some []⟩

/-- C1, witness: a concrete finishing turn on which the amended invariant is
non-vacuous — the persister and the email agent were both invoked and
`lead_saved` matches `conversation_ended`. -/
theorem c1_witness :
    graph_invoke exEnvEnd sEnd = .ok witOutEnd ∧
    witOutEnd.saveArg.isSome = true ∧
    witOutEnd.emailInvoked = true ∧
    witOutEnd.state.lead_saved = witOutEnd.state.conversation_ended :=
  ⟨rfl,
   (c1_amended_theorem exEnvEnd sEnd witOutEnd rfl).1 rfl (by decide),
   (c1_amended_theorem exEnvEnd sEnd witOutEnd rfl).2.1 rfl (by decide) (by decide),
   (c1_amended_theorem exEnvEnd sEnd witOutEnd rfl).2.2⟩

/-- C10, witness: the same finishing turn flips `emails_sent` to `true`, and
the theorem certifies the gate conditions held; the direct gate of
`send_email_to_lead` is exercised on a `"NULL"`-email lead. -/
theorem c10_witness :
    (graph_invoke exEnvEnd sEnd = .ok witOutEnd ∧
      sEnd.emails_sent = false ∧ witOutEnd.state.emails_sent = true ∧
      witOutEnd.state.conversation_ended = true ∧ witOutEnd.emailInvoked = true) ∧
    ((send_email_to_lead ⟨none, fun _ => true⟩ defaultLead (some [])).success = false ∧
      (send_email_to_lead ⟨none, fun _ => true⟩ defaultLead (some [])).transmissionAttempts = 0) :=
  ⟨⟨rfl, rfl, rfl,
    ((c10_theorem exEnvEnd sEnd witOutEnd rfl).1 rfl rfl).1,
    ((c10_theorem exEnvEnd sEnd witOutEnd rfl).1 rfl rfl).2.2⟩,
   (c10_theorem exEnvEnd sEnd witOutEnd rfl).2 ⟨none, fun _ => true⟩ defaultLead
     (some []) (Or.inr rfl)⟩

/-- A lead with a real email, used in concrete turns. -/
def aliceLead : Lead := Lead.mk "Alice" "alice@x.com" none

/-- C2, counterexample: on the utterance `"bye"` the Intent Classifier returns
`end`, the lead email is real, and no confirmation was asked yet — but the
turn returns `conversation_ended = false` with the fixed confirmation prompt
and no Persister call, refuting the claimed direct `ONGOING → ENDED`
transition on intent `end`. -/
theorem c2_counterexample :
    detect_intent "bye" = "end" ∧
    (respond exEnvA.respondEnv "bye" (some aliceLead) [] (some [])).map
      (fun r => (r.ended, r.saveArg, r.reply)) = .ok (false, none, confirmPrompt) := by
  exact ⟨rfl, rfl⟩

/-- C2, amended: on intent `end` the turn ends at once with a farewell and a
Persister call only when the extracted email is real, an "anything else"
prompt was already issued, and the utterance carries a negative closing
signal; with a `"NULL"` email the turn returns `conversation_ended = true`
but never invokes the Persister (the reply then comes from the generic
responder). -/
theorem c2_amended_theorem (env : RespondEnv) (msg : String) (prev : Option Lead)
    (mem : List Msg) (sh : Option (List (List String)))
    (hend : detect_intent msg = "end") :
    ((analyze_details env.extraction prev).email ≠ "NULL" →
      askedAnythingElse (mem ++ [Msg.mk "user" msg]) = true →
      negativeClosing msg = true →
      (respond env msg prev mem sh).map (fun r => (r.ended, r.saveArg, r.reply)) =
        .ok (true, some (analyze_details env.extraction prev),
          farewellReply (analyze_details env.extraction prev).name)) ∧
    ((analyze_details env.extraction prev).email = "NULL" →
      (respond env msg prev mem sh).map (fun r => (r.ended, r.saveArg)) =
        .ok (true, none)) := by
  constructor
  · intro h1 h2 h3
    unfold respond
    rw [if_pos hend]
    unfold respondAfterDetect
    rw [if_pos (by simp [h1])]
    rw [if_neg (by rw [h2]; decide)]
    rw [if_pos h3]
    rfl
  · intro h1
    unfold respond
    rw [if_pos hend]
    rw [rad_null_email env msg _ true true _ sh h1]
    cases env.responder <;> rfl

/-- C2, witness: both amended branches exercised — the closing turn
`"no, that's all"` after the prompt ends with persistence, and a `"bye"` turn
with an unknown email ends without persistence. -/
theorem c2_witness :
    ((respond exEnvEnd.respondEnv ("no, that" ++ sqc ++ "s all") (some aliceLead)
        [Msg.mk "assistant" confirmPrompt] (some [])).map
      (fun r => (r.ended, r.saveArg, r.reply)) =
      .ok (true, some aliceLead, farewellReply "Alice")) ∧
    ((respond exEnvA.respondEnv "bye" none [] (some [])).map
      (fun r => (r.ended, r.saveArg)) = .ok (true, none)) :=
  ⟨(c2_amended_theorem exEnvEnd.respondEnv ("no, that" ++ sqc ++ "s all")
      (some aliceLead) [Msg.mk "assistant" confirmPrompt] (some [])
      (by decide)).1 (by decide) (by decide) (by decide),
   (c2_amended_theorem exEnvA.respondEnv "bye" none [] (some [])
      (by decide)).2 rfl⟩

/-- C3: with intent not `end`, the Completion-Ended Detector reporting
`ended = true`, a real extracted email and no prior assistant "anything else"
message, the chat turn replies with the fixed confirmation prompt, returns
`conversation_ended = false`, does not invoke `save_lead_to_sheet`, and
reports `lead_saved = false`. -/
theorem c3_theorem (env : TurnEnv) (s : WState) (msg : String)
    (h1 : detect_intent msg ≠ "end")
    (h2 : env.respondEnv.detection = .ok (.parsed true))
    (h3 : msg ≠ "")
    (h4 : (analyze_details env.respondEnv.extraction
      (some (s.latest_lead.getD defaultLead))).email ≠ "NULL")
    (h5 : askedAnythingElse s.messages = false) :
    (chat env s (some msg)).map
      (fun p => (p.1.ai_reply, p.1.conversation_ended, p.1.lead_saved, p.2.saveArg)) =
    .ok (confirmPrompt, false, false, none) := by
  have hask : (!askedAnythingElse
      ((s.messages ++ [Msg.mk "user" msg]) ++ [Msg.mk "user" msg])) = true := by
    rw [askedAnythingElse_user, askedAnythingElse_user, h5]
    rfl
  have hresp : respond env.respondEnv msg (some (s.latest_lead.getD defaultLead))
      (s.messages ++ [Msg.mk "user" msg]) env.leadSheet =
      .ok ⟨confirmPrompt,
        analyze_details env.respondEnv.extraction (some (s.latest_lead.getD defaultLead)),
        false,
        ((s.messages ++ [Msg.mk "user" msg]) ++ [Msg.mk "user" msg]) ++
          [Msg.mk "assistant" confirmPrompt],
        none, env.leadSheet⟩ := by
    unfold respond
    rw [if_neg h1, h2]
    dsimp only
    unfold respondAfterDetect
    rw [if_pos (by simp [h4])]
    rw [if_pos hask]
  have hconv : run_conversation_from_messages env.respondEnv
      (s.messages ++ [Msg.mk "user" msg]) (some (s.latest_lead.getD defaultLead))
      env.leadSheet =
      .ok ⟨confirmPrompt,
        analyze_details env.respondEnv.extraction (some (s.latest_lead.getD defaultLead)),
        false, none, env.leadSheet⟩ := by
    unfold run_conversation_from_messages
    dsimp only
    rw [lastUserMsg_concat]
    dsimp only
    rw [if_neg h3, hresp]
  have hlb : leadbot_node env.respondEnv env.leadSheet
      { s with messages := s.messages ++ [Msg.mk "user" msg] } =
      .ok ⟨⟨(s.messages ++ [Msg.mk "user" msg]) ++ [Msg.mk "assistant" confirmPrompt],
        false, s.emails_sent,
        some (analyze_details env.respondEnv.extraction
          (some (s.latest_lead.getD defaultLead))), false⟩,
        none, env.leadSheet⟩ := by
    unfold leadbot_node
    dsimp only
    rw [hconv]
  have hgi : graph_invoke env { s with messages := s.messages ++ [Msg.mk "user" msg] } =
      .ok ⟨⟨(s.messages ++ [Msg.mk "user" msg]) ++ [Msg.mk "assistant" confirmPrompt],
        false, s.emails_sent,
        some (analyze_details env.respondEnv.extraction
          (some (s.latest_lead.getD defaultLead))), false⟩,
        none, false, 0, env.leadSheet, env.emailSheet⟩ := by
    unfold graph_invoke
    rw [hlb]
    dsimp only
    rw [if_neg (by simp [route_after_leadbot])]
  unfold chat
  dsimp only
  rw [if_neg h3, hgi]
  dsimp only
  rw [lastAssistant_concat]
  rfl

/-- A turn environment exercising C3: the detector fires on a conversation
with a fresh session while the extractor reports a real email. -/
def exEnvC3 : TurnEnv :=
  ⟨⟨.ok (.parsed true), .parsed (some "Alice") (some "alice@x.com") (some false),
    .ok "generic reply", .ok "S"⟩,
   ⟨none, fun _ => false⟩, some [], some []⟩

/-- C3, witness: a concrete detector-fired turn producing the confirmation
prompt without persistence. -/
theorem c3_witness :
    detect_intent "I want a demo" ≠ "end" ∧
    (chat exEnvC3 initialState (some "I want a demo")).map
      (fun p => (p.1.ai_reply, p.1.conversation_ended, p.1.lead_saved, p.2.saveArg)) =
    .ok (confirmPrompt, false, false, none) :=
  ⟨by decide,
   c3_theorem exEnvC3 initialState "I want a demo" (by decide) rfl (by decide)
     (by decide) rfl⟩

/-- C4: after the "anything else" prompt, the utterance `"no, that's all"`
(with a real extracted email) ends the conversation, hands the current lead to
`save_lead_to_sheet`, and produces the farewell reply. -/
theorem c4_theorem (env : RespondEnv) (prev : Option Lead) (mem : List Msg)
    (sh : Option (List (List String)))
    (h1 : askedAnythingElse mem = true)
    (h2 : (analyze_details env.extraction prev).email ≠ "NULL") :
    (respond env ("no, that" ++ sqc ++ "s all") prev mem sh).map
      (fun r => (r.ended, r.saveArg, r.reply)) =
    .ok (true, some (analyze_details env.extraction prev),
      farewellReply (analyze_details env.extraction prev).name) := by
  have hend : detect_intent ("no, that" ++ sqc ++ "s all") = "end" := by decide
  have hneg : negativeClosing ("no, that" ++ sqc ++ "s all") = true := by decide
  unfold respond
  rw [if_pos hend]
  unfold respondAfterDetect
  rw [if_pos (by simp [h2])]
  rw [if_neg (by rw [askedAnythingElse_user, h1]; decide)]
  rw [if_pos hneg]
  rfl

/-- C4, witness: the concrete closing turn after the confirmation prompt. -/
theorem c4_witness :
    (respond exEnvEnd.respondEnv ("no, that" ++ sqc ++ "s all") (some aliceLead)
        [Msg.mk "user" "hi", Msg.mk "assistant" confirmPrompt] (some [])).map
      (fun r => (r.ended, r.saveArg, r.reply)) =
    .ok (true, some aliceLead, farewellReply "Alice") :=
  c4_theorem exEnvEnd.respondEnv (some aliceLead)
    [Msg.mk "user" "hi", Msg.mk "assistant" confirmPrompt] (some [])
    (by decide) (by decide)

/-- A turn environment in which the end-detection completion call raises. -/
def c5Env : TurnEnv :=
  ⟨⟨.error (), .parsed none none none, .ok "generic reply", .ok "S"⟩,
   ⟨none, fun _ => false⟩, some [], some []⟩

/-- C5: the chat endpoint does NOT always answer 200 — on the turn `"hello"`
(intent `general`) with the detection completion call raising, the exception
propagates out of the turn (no response payload is produced), because that one
call site in `respond` is outside every try/except. -/
theorem c5_theorem :
    detect_intent "hello" = "general" ∧
    chat c5Env initialState (some "hello") = .error () := by
  exact ⟨rfl, rfl⟩

/-- C6, counterexample: the returned name field `""` differs from the literal
string `"null"`, so per the claim it should overwrite — but `analyze_details`
keeps the previous name `"Alice"` (Python `or`-chain treats `""` as falsy). -/
theorem c6_counterexample :
    (some "" : Option String) ≠ some "null" ∧
    (analyze_details (.parsed (some "") (some "bob@x.com") (some false))
      (some (Lead.mk "Alice" "NULL" none))).name = "Alice" ∧
    ("Alice" : String) ≠ "" := by
  exact ⟨by decide, rfl, by decide⟩

/-- C6, amended: a returned field overwrites the previous value only when it is
a non-empty string different from the literal `"null"`; a `"null"`, absent or
empty returned field keeps the previous (truthy) value, falling back to the
`Unknown`/`NULL` sentinels; the spec's Alice/bob example holds as stated. -/
theorem c6_amended_theorem (n e : Option String) (rf : Option Bool) (p : Lead) :
    (∀ s : String, n = some s → s ≠ "null" → s ≠ "" →
      (analyze_details (.parsed n e rf) (some p)).name = s) ∧
    ((n = some "null" ∨ n = none ∨ n = some "") →
      (analyze_details (.parsed n e rf) (some p)).name = pyOrStr (some p.name) "Unknown") ∧
    (∀ s : String, e = some s → s ≠ "null" → s ≠ "" →
      (analyze_details (.parsed n e rf) (some p)).email = s) ∧
    ((e = some "null" ∨ e = none ∨ e = some "") →
      (analyze_details (.parsed n e rf) (some p)).email = pyOrStr (some p.email) "NULL") ∧
    analyze_details (.parsed (some "null") (some "bob@x.com") (some false))
      (some (Lead.mk "Alice" "NULL" none)) = Lead.mk "Alice" "bob@x.com" none := by
  refine ⟨?_, ?_, ?_, ?_, by decide⟩
  · intro s hs hnull hempty
    subst hs
    simp [analyze_details, pyOrStr, hnull, hempty]
  · intro hcase
    rcases hcase with hx | hx | hx <;> subst hx
    · exact pyOrStr_self_absorb p.name "Unknown"
    · rfl
    · rfl
  · intro s hs hnull hempty
    subst hs
    simp [analyze_details, pyOrStr, hnull, hempty]
  · intro hcase
    rcases hcase with hx | hx | hx <;> subst hx
    · exact pyOrStr_self_absorb p.email "NULL"
    · rfl
    · rfl

/-- C6, witness: a concrete merge exercising both amended rules — a fresh name
overwrites, a `"null"` email keeps the previous one. -/
theorem c6_witness :
    (analyze_details (.parsed (some "Bob") (some "null") (some false))
      (some (Lead.mk "Alice" "a@x.com" none))).name = "Bob" ∧
    (analyze_details (.parsed (some "Bob") (some "null") (some false))
      (some (Lead.mk "Alice" "a@x.com" none))).email = pyOrStr (some "a@x.com") "NULL" :=
  ⟨(c6_amended_theorem (some "Bob") (some "null") (some false)
      (Lead.mk "Alice" "a@x.com" none)).1 "Bob" rfl (by decide) (by decide),
   (c6_amended_theorem (some "Bob") (some "null") (some false)
      (Lead.mk "Alice" "a@x.com" none)).2.2.2.1 (Or.inl rfl)⟩

/-- C7, counterexample: on a parse-success response with all fields missing,
`analyze_details` does NOT return the previous Lead unmodified — the previous
summary is dropped because the merge path builds a fresh name/email dict. -/
theorem c7_counterexample :
    analyze_details (.parsed none none none)
      (some (Lead.mk "Alice" "a@x.com" (some "Chatted about AI"))) =
      Lead.mk "Alice" "a@x.com" none ∧
    Lead.mk "Alice" "a@x.com" none ≠ Lead.mk "Alice" "a@x.com" (some "Chatted about AI") := by
  exact ⟨rfl, by decide⟩

/-- C7, amended: on invalid JSON or a failed service call `analyze_details`
returns exactly `prev_lead or default` and never raises; a response that
parses but misses fields instead flows through the merge path, retaining the
previous truthy name/email (with the `Unknown`/`NULL` fallbacks) but dropping
any attached summary. -/
theorem c7_amended_theorem :
    (∀ prev : Option Lead, analyze_details .svcError prev = prev.getD defaultLead ∧
      analyze_details .parseError prev = prev.getD defaultLead) ∧
    (∀ (p : Lead) (rf : Option Bool), analyze_details (.parsed none none rf) (some p) =
      Lead.mk (pyOrStr (some p.name) "Unknown") (pyOrStr (some p.email) "NULL") none) ∧
    (∀ rf : Option Bool, analyze_details (.parsed none none rf) none = defaultLead) := by
  exact ⟨fun _ => ⟨rfl, rfl⟩, fun _ _ => rfl, fun _ => rfl⟩

/-- The worksheet used in the C8 concrete runs. -/
def rowsC8 : List (List String) := [["Alice", "a@x.com", "S", ""]]

/-- C8, counterexample: when every SMTP transmission attempt fails,
`send_email_to_lead` returns `false` with the worksheet untouched — no status
cell is set to `"FAILED"` (that marking only exists in the batch path
`main`). -/
theorem c8_counterexample :
    send_email_to_lead ⟨none, fun _ => false⟩ (Lead.mk "Alice" "a@x.com" (some "S"))
      (some rowsC8) = ⟨false, some rowsC8, 3⟩ ∧
    rowsC8.all (fun row => !(row.contains "FAILED")) = true := by
  exact ⟨rfl, rfl⟩

/-- C8, amended: with a real email and an available worksheet, a successful
transmission makes `send_email_to_lead` return `true` and mark column 4 of
the row found by the email value `"SENT"`; a failed transmission makes it
return `false` and leave the worksheet unchanged (no `"FAILED"` marking). -/
theorem c8_amended_theorem (e : EmailEnv) (lead : Lead) (ws : List (List String))
    (h1 : lead.email ≠ "") (h2 : lead.email ≠ "NULL") :
    ((send_email e.sendOutcome 3 5).result = some true →
      (send_email_to_lead e lead (some ws)).success = true ∧
      (∀ r, findRow ws lead.email = some r →
        (send_email_to_lead e lead (some ws)).sheet = some (update_cell ws r 4 "SENT"))) ∧
    ((send_email e.sendOutcome 3 5).result = some false →
      (send_email_to_lead e lead (some ws)).success = false ∧
      (send_email_to_lead e lead (some ws)).sheet = some ws) := by
  have hred : send_email_to_lead e lead (some ws) =
      if (lead.email == "" || lead.email == "NULL") = true then ⟨false, some ws, 0⟩
      else if (send_email e.sendOutcome 3 5).result.getD false = true then
        (match findRow ws lead.email with
         | some r => ⟨true, some (update_cell ws r 4 "SENT"),
             (send_email e.sendOutcome 3 5).attempts⟩
         | none => ⟨true, some ws, (send_email e.sendOutcome 3 5).attempts⟩)
      else ⟨false, some ws, (send_email e.sendOutcome 3 5).attempts⟩ := rfl
  rw [hred, if_neg (by simp [h1, h2])]
  constructor
  · intro hsend
    rw [hsend]
    simp only [Option.getD_some, if_true]
    constructor
    · cases findRow ws lead.email <;> rfl
    · intro r hr
      rw [hr]
  · intro hsend
    rw [hsend]
    simp only [Option.getD_some]
    rw [if_neg Bool.false_ne_true]
    exact ⟨rfl, rfl⟩

/-- C8, witness: both amended branches on concrete inputs — success marks the
found row `"SENT"`, failure leaves the sheet untouched with `false`. -/
theorem c8_witness :
    (send_email_to_lead ⟨none, fun _ => true⟩ (Lead.mk "Alice" "a@x.com" (some "S"))
      (some rowsC8)).sheet = some (update_cell rowsC8 1 4 "SENT") ∧
    (send_email_to_lead ⟨none, fun _ => false⟩ (Lead.mk "Alice" "a@x.com" (some "S"))
      (some rowsC8)).success = false ∧
    (send_email_to_lead ⟨none, fun _ => false⟩ (Lead.mk "Alice" "a@x.com" (some "S"))
      (some rowsC8)).sheet = some rowsC8 :=
  ⟨((c8_amended_theorem ⟨none, fun _ => true⟩ (Lead.mk "Alice" "a@x.com" (some "S"))
      rowsC8 (by decide) (by decide)).1 rfl).2 1 rfl,
   ((c8_amended_theorem ⟨none, fun _ => false⟩ (Lead.mk "Alice" "a@x.com" (some "S"))
      rowsC8 (by decide) (by decide)).2 rfl).1,
   ((c8_amended_theorem ⟨none, fun _ => false⟩ (Lead.mk "Alice" "a@x.com" (some "S"))
      rowsC8 (by decide) (by decide)).2 rfl).2⟩

/-- C9: `send_email` with the default bounds makes at most 3 transmission
attempts with a 5-second sleep between consecutive attempts, never raises
(always returns a boolean); it returns `false` when all attempts fail and
returns `true` at the first succeeding attempt `k` without performing the
remaining attempts. -/
theorem c9_theorem (outcome : Nat → Bool) :
    (send_email outcome 3 5).attempts ≤ 3 ∧
    (send_email outcome 3 5).sleeps =
      List.replicate ((send_email outcome 3 5).attempts - 1) 5 ∧
    (send_email outcome 3 5).result.isSome = true ∧
    ((∀ k, 1 ≤ k → k ≤ 3 → outcome k = false) →
      (send_email outcome 3 5).result = some false ∧
      (send_email outcome 3 5).attempts = 3) ∧
    (∀ k, 1 ≤ k → k ≤ 3 → outcome k = true →
      (∀ j, 1 ≤ j → j < k → outcome j = false) →
      (send_email outcome 3 5).result = some true ∧
      (send_email outcome 3 5).attempts = k) := by
  cases h1 : outcome 1 with
  | true =>
      have ht : send_email outcome 3 5 = ⟨some true, 1, []⟩ := by
        simp [send_email, send_email_loop, h1]
      refine ⟨by rw [ht] <;> decide, by rw [ht] <;> rfl, by rw [ht] <;> rfl, ?_, ?_⟩
      · intro hall
        have hx := hall 1 (by decide) (by decide)
        rw [h1] at hx
        exact Bool.noConfusion hx
      · intro k hk1 hk3 hk hmin
        interval_cases k
        · exact ⟨by rw [ht], by rw [ht]⟩
        · have hx := hmin 1 (by decide) (by decide)
          rw [h1] at hx
          exact Bool.noConfusion hx
        · have hx := hmin 1 (by decide) (by decide)
          rw [h1] at hx
          exact Bool.noConfusion hx
  | false =>
      cases h2 : outcome 2 with
      | true =>
          have ht : send_email outcome 3 5 = ⟨some true, 2, [5]⟩ := by
            simp [send_email, send_email_loop, h1, h2]
          refine ⟨by rw [ht] <;> decide, by rw [ht] <;> rfl, by rw [ht] <;> rfl, ?_, ?_⟩
          · intro hall
            have hx := hall 2 (by decide) (by decide)
            rw [h2] at hx
            exact Bool.noConfusion hx
          · intro k hk1 hk3 hk hmin
            interval_cases k
            · rw [h1] at hk
              exact Bool.noConfusion hk
            · exact ⟨by rw [ht], by rw [ht]⟩
            · have hx := hmin 2 (by decide) (by decide)
              rw [h2] at hx
              exact Bool.noConfusion hx
      | false =>
          cases h3 : outcome 3 with
          | true =>
              have ht : send_email outcome 3 5 = ⟨some true, 3, [5, 5]⟩ := by
                simp [send_email, send_email_loop, h1, h2, h3]
              refine ⟨by rw [ht] <;> decide, by rw [ht] <;> rfl, by rw [ht] <;> rfl, ?_, ?_⟩
              · intro hall
                have hx := hall 3 (by decide) (by decide)
                rw [h3] at hx
                exact Bool.noConfusion hx
              · intro k hk1 hk3 hk hmin
                interval_cases k
                · rw [h1] at hk
                  exact Bool.noConfusion hk
                · rw [h2] at hk
                  exact Bool.noConfusion hk
                · exact ⟨by rw [ht], by rw [ht]⟩
          | false =>
              have ht : send_email outcome 3 5 = ⟨some false, 3, [5, 5]⟩ := by
                simp [send_email, send_email_loop, h1, h2, h3]
              refine ⟨by rw [ht] <;> decide, by rw [ht] <;> rfl, by rw [ht] <;> rfl, ?_, ?_⟩
              · intro _hall
                exact ⟨by rw [ht], by rw [ht]⟩
              · intro k hk1 hk3 hk hmin
                interval_cases k
                · rw [h1] at hk
                  exact Bool.noConfusion hk
                · rw [h2] at hk
                  exact Bool.noConfusion hk
                · rw [h3] at hk
                  exact Bool.noConfusion hk

/-- C9, witness: an SMTP relay accepting on attempt 2 — `send_email` returns
`true` after exactly 2 attempts and one 5-second sleep. -/
theorem c9_witness :
    (send_email (fun k => k == 2) 3 5).result = some true ∧
    (send_email (fun k => k == 2) 3 5).attempts = 2 ∧
    (send_email (fun k => k == 2) 3 5).sleeps = [5] :=
  ⟨((c9_theorem (fun k => k == 2)).2.2.2.2 2 (by decide) (by decide) rfl
      (fun j hj1 hj2 => by interval_cases j; rfl)).1,
   ((c9_theorem (fun k => k == 2)).2.2.2.2 2 (by decide) (by decide) rfl
      (fun j hj1 hj2 => by interval_cases j; rfl)).2,
   rfl⟩

end TS
